import Mathlib

/-
  Verification of the command-submission core of the vulkan-rs repository.

  Shallow embedding conventions:
  * Native handles (vk::Image, vk::Buffer, vk::Semaphore, vk::CommandBuffer,
    vk::Queue, ...) are represented by natural-number identifiers.
  * Fallible operations (Rust assert! / unwrap / todo! / unimplemented! panics)
    are embedded as Option or Except results; an error value carries the state
    at the moment of the panic, so that statements of the form
    -- the fault is raised before any native call is issued --
    become provable equations about the carried state.
  * Native API calls issued by an operation are recorded in an explicit trace,
    so that ordering properties (check before call, wait before release)
    are expressible.
-/

namespace VulkanRs

/-- Image layouts used by the repository (src/image.rs, src/command.rs).
Only the layouts appearing in the fixed transition table plus further
layouts that exercise the unregistered-transition path are modelled. -/
inductive ImageLayout
  | UNDEFINED
  | TRANSFER_DST_OPTIMAL
  | SHADER_READ_ONLY_OPTIMAL
  | GENERAL
  | PRESENT_SRC
deriving DecidableEq

/-- Access mask flags appearing in the transition table of
CommandBufferBuilder::pipeline_barrier (src/command.rs lines 413-421). -/
inductive AccessFlags
  | empty
  | TRANSFER_WRITE
  | SHADER_READ
deriving DecidableEq

/-- The fixed (old layout, new layout) to (src access mask, dst access mask)
lookup table in pipeline_barrier; the catch-all arm of the Rust match is
an unimplemented! panic, embedded as none. -/
def accessMasks : ImageLayout → ImageLayout → Option (AccessFlags × AccessFlags)
  | .UNDEFINED, .TRANSFER_DST_OPTIMAL => some (.empty, .TRANSFER_WRITE)
  | .TRANSFER_DST_OPTIMAL, .SHADER_READ_ONLY_OPTIMAL => some (.TRANSFER_WRITE, .SHADER_READ)
  | _, _ => none

/-- The resource keep-alive ledger entry (enum Resource, src/sync.rs lines
269-282), one tagged variant per retainable resource kind; each variant
carries the identifier of the shared (Arc) resource it retains. -/
inductive Resource
  | Buffer (id : Nat)
  | CommandBufferSecondary (id : Nat)
  | DescriptorSet (id : Nat)
  | Framebuffer (id : Nat)
  | Image (id : Nat)
  | ImageView (id : Nat)
  | Pipeline (id : Nat)
  | PipelineLayout (id : Nat)
  | RenderPass (id : Nat)
  | Sampler (id : Nat)
deriving DecidableEq

/-- Native recording calls issued through the device by the builder append
operations, with the handles they embed where a claim refers to them. -/
inductive NativeCall
  | cmdBeginRenderPass (renderPass framebuffer : Nat)
  | cmdBindDescriptorSets (layout : Nat) (sets : List Nat)
  | cmdBindPipeline (pipeline : Nat)
  | cmdBindVertexBuffers (buffers : List Nat)
  | cmdClearColorImage (image : Nat)
  | cmdCopyBuffer (src dst : Nat)
  | cmdCopyBufferToImage (src dst : Nat)
  | cmdDraw
  | cmdEndRenderPass
  | cmdExecuteCommands (secondaries : List Nat)
  | cmdPipelineBarrier
  | cmdPushConstants (layout : Nat)
deriving DecidableEq

/-- A GPU buffer (struct Buffer, src/buffer.rs): a native handle identifier
plus its byte size, the two observables used by the recording builder. -/
structure Buffer where
  id : Nat
  size : Nat
deriving DecidableEq

/-- A GPU image as seen by the recording builder: its handle identifier and
its length in texels (Image::len, src/image.rs line 74). The mutable layout
tag lives outside this record, in a LayoutEnv, mirroring the Atomic slot
shared between recordings. -/
structure ImageDesc where
  id : Nat
  len : Nat
deriving DecidableEq

/-- The shared mutable image-layout state: the current layout tag of each
image handle (field layout of struct Image, an Atomic slot). -/
def LayoutEnv := Nat → ImageLayout

/-- Updating the layout tag of one image (Image::set_layout). -/
def LayoutEnv.store (env : LayoutEnv) (img : Nat) (l : ImageLayout) : LayoutEnv :=
  fun j => if j = img then l else env j

/-- An image memory barrier request (struct ImageMemoryBarrier,
src/command.rs lines 472-480): the image and the requested new layout. -/
structure ImageMemoryBarrier where
  img : Nat
  newLayout : ImageLayout
deriving DecidableEq

/-- The recording builder (struct CommandBufferBuilder, src/command.rs lines
185-194): the resource keep-alive ledger accumulated so far, plus the trace
of native recording calls issued so far. Begin flags, the pool back
reference and the phantom primary/secondary discriminant do not affect any
claim and are omitted. -/
structure CommandBufferBuilder where
  resources : List Resource
  calls : List NativeCall
deriving DecidableEq

namespace CommandBufferBuilder

/-- begin_render_pass (src/command.rs lines 216-235): issues
cmd_begin_render_pass, then pushes the render pass and the framebuffer
onto the ledger. -/
def beginRenderPass (b : CommandBufferBuilder) (renderPass framebuffer : Nat) :
    CommandBufferBuilder :=
  { resources := b.resources ++ [.RenderPass renderPass, .Framebuffer framebuffer],
    calls := b.calls ++ [.cmdBeginRenderPass renderPass framebuffer] }

/-- bind_descriptor_sets (src/command.rs lines 250-279): pushes every
descriptor set onto the ledger while collecting handles, issues
cmd_bind_descriptor_sets, then pushes the pipeline layout. -/
def bindDescriptorSets (b : CommandBufferBuilder) (layout : Nat) (sets : List Nat) :
    CommandBufferBuilder :=
  { resources := b.resources ++ sets.map .DescriptorSet ++ [.PipelineLayout layout],
    calls := b.calls ++ [.cmdBindDescriptorSets layout sets] }

/-- bind_pipeline (src/command.rs lines 281-285): issues cmd_bind_pipeline
and pushes the pipeline onto the ledger. -/
def bindPipeline (b : CommandBufferBuilder) (pipeline : Nat) : CommandBufferBuilder :=
  { resources := b.resources ++ [.Pipeline pipeline],
    calls := b.calls ++ [.cmdBindPipeline pipeline] }

/-- bind_vertex_buffers (src/command.rs lines 287-303): pushes every buffer
onto the ledger while collecting handles, then issues
cmd_bind_vertex_buffers. -/
def bindVertexBuffers (b : CommandBufferBuilder) (buffers : List Nat) :
    CommandBufferBuilder :=
  { resources := b.resources ++ buffers.map .Buffer,
    calls := b.calls ++ [.cmdBindVertexBuffers buffers] }

/-- clear_color_image (src/command.rs lines 305-323): issues
cmd_clear_color_image on the image and returns. Faithful to the source:
the function pushes no ledger entry at all — the Arc of the image argument
is dropped when the function returns. -/
def clearColorImage (b : CommandBufferBuilder) (image : Nat) : CommandBufferBuilder :=
  { resources := b.resources,
    calls := b.calls ++ [.cmdClearColorImage image] }

/-- copy_buffer (src/command.rs lines 325-334): asserts
src.size() <= dst.size() before anything else; only then issues
cmd_copy_buffer and pushes both buffers onto the ledger. A failed assert
is an error carrying the unchanged builder: no native call was issued. -/
def copyBuffer (b : CommandBufferBuilder) (src dst : Buffer) :
    Except CommandBufferBuilder CommandBufferBuilder :=
  if src.size ≤ dst.size then
    .ok { resources := b.resources ++ [.Buffer src.id, .Buffer dst.id],
          calls := b.calls ++ [.cmdCopyBuffer src.id dst.id] }
  else
    .error b

/-- copy_buffer_to_image (src/command.rs lines 336-373): asserts
src.len() <= dst.len() first; then issues cmd_copy_buffer_to_image and
pushes the source buffer and the destination image onto the ledger.
The srcLen argument is the element count of the source slice buffer. -/
def copyBufferToImage (b : CommandBufferBuilder) (src : Buffer) (srcLen : Nat)
    (dst : ImageDesc) : Except CommandBufferBuilder CommandBufferBuilder :=
  if srcLen ≤ dst.len then
    .ok { resources := b.resources ++ [.Buffer src.id, .Image dst.id],
          calls := b.calls ++ [.cmdCopyBufferToImage src.id dst.id] }
  else
    .error b

/-- draw (src/command.rs lines 375-378): issues cmd_draw; references no
reference-counted resource. -/
def draw (b : CommandBufferBuilder) : CommandBufferBuilder :=
  { resources := b.resources, calls := b.calls ++ [.cmdDraw] }

/-- end_render_pass (src/command.rs lines 380-383): issues
cmd_end_render_pass; references no reference-counted resource. -/
def endRenderPass (b : CommandBufferBuilder) : CommandBufferBuilder :=
  { resources := b.resources, calls := b.calls ++ [.cmdEndRenderPass] }

/-- execute_commands (src/command.rs lines 385-396): pushes every secondary
command buffer onto the ledger while collecting handles, then issues
cmd_execute_commands. -/
def executeCommands (b : CommandBufferBuilder) (secondaries : List Nat) :
    CommandBufferBuilder :=
  { resources := b.resources ++ secondaries.map .CommandBufferSecondary,
    calls := b.calls ++ [.cmdExecuteCommands secondaries] }

/-- push_constants (src/command.rs lines 455-469): asserts that the value
size is a multiple of 4 and that the stage flags are nonempty, then issues
cmd_push_constants and pushes the pipeline layout onto the ledger. -/
def pushConstants (b : CommandBufferBuilder) (layout : Nat)
    (stageFlagsNonempty : Bool) (valSize : Nat) :
    Except CommandBufferBuilder CommandBufferBuilder :=
  if valSize % 4 = 0 ∧ stageFlagsNonempty then
    .ok { resources := b.resources ++ [.PipelineLayout layout],
          calls := b.calls ++ [.cmdPushConstants layout] }
  else
    .error b

end CommandBufferBuilder

/-- The per-barrier loop of pipeline_barrier (src/command.rs lines 404-439):
for each barrier it reads the current layout of the image (Image::layout),
stores the new layout (Image::set_layout) — before anything else — and then
looks the (old, new) pair up in the fixed table; an unregistered pair is an
unimplemented! panic, embedded as an error carrying the builder and layout
state at the moment of the panic (the new layout is already stored). On
success the image is pushed onto the ledger and the loop continues. -/
def pipelineBarrierLoop : List ImageMemoryBarrier → CommandBufferBuilder → LayoutEnv →
    Except (CommandBufferBuilder × LayoutEnv) (CommandBufferBuilder × LayoutEnv)
  | [], b, env => .ok (b, env)
  | bar :: rest, b, env =>
    let oldLayout := env bar.img
    let env2 := env.store bar.img bar.newLayout
    match accessMasks oldLayout bar.newLayout with
    | none => .error (b, env2)
    | some _ =>
      pipelineBarrierLoop rest { b with resources := b.resources ++ [.Image bar.img] } env2

/-- pipeline_barrier (src/command.rs lines 398-453): runs the per-barrier
loop, then issues the single native cmd_pipeline_barrier call. -/
def CommandBufferBuilder.pipelineBarrier (b : CommandBufferBuilder) (env : LayoutEnv)
    (bars : List ImageMemoryBarrier) :
    Except (CommandBufferBuilder × LayoutEnv) (CommandBufferBuilder × LayoutEnv) :=
  match pipelineBarrierLoop bars b env with
  | .error e => .error e
  | .ok (b2, env2) => .ok ({ b2 with calls := b2.calls ++ [.cmdPipelineBarrier] }, env2)

/-- The state of one thread-local native command pool together with its
entry in the shared free-list map (struct CommandPoolInner plus the
matching CmdCollection in CommandPool.free, src/command.rs lines 28-34 and
168-183). The live lists are the handles currently held by recording
builders or built command buffers (field vk of CommandBufferBuilder and
CommandBuffer); primarySize and secondarySize count the handles ever
allocated from the native pool (the u32 counters of CommandPoolInner).
nativeResets counts native reset_command_pool calls, to express that a
failed precondition check faults before the native reset. -/
structure PoolState where
  primaryUnused : List Nat
  secondaryUnused : List Nat
  primarySize : Nat
  secondarySize : Nat
  freePrimary : List Nat
  freeSecondary : List Nat
  livePrimary : List Nat
  liveSecondary : List Nat
  nextHandle : Nat
  nativeResets : Nat
deriving DecidableEq

namespace PoolState

/-- The handles returned by one allocate_command_buffers call: a batch of
fresh native handles. -/
def allocRange (start n : Nat) : List Nat := (List.range n).map (start + ·)

/-- The state immediately after a fresh lazily-created thread-local pool
(CommandPool::get_pool first use): no handles allocated, empty free-list
entry. -/
def init : PoolState := ⟨[], [], 0, 0, [], [], [], [], 0, 0⟩

/-- The allocation step of get_cmdbuf for primary buffers (src/command.rs
lines 115-137): when the thread-local unused list is empty, bulk-allocate
a batch of size max(primary_size, 1) and grow primary_size by it. -/
def refillPrimary (s : PoolState) : PoolState :=
  if s.primaryUnused.isEmpty then
    { s with
      primaryUnused := allocRange s.nextHandle (if s.primarySize = 0 then 1 else s.primarySize),
      primarySize := s.primarySize + (if s.primarySize = 0 then 1 else s.primarySize),
      nextHandle := s.nextHandle + (if s.primarySize = 0 then 1 else s.primarySize) }
  else s

/-- The allocation step of get_cmdbuf for secondary buffers. -/
def refillSecondary (s : PoolState) : PoolState :=
  if s.secondaryUnused.isEmpty then
    { s with
      secondaryUnused := allocRange s.nextHandle (if s.secondarySize = 0 then 1 else s.secondarySize),
      secondarySize := s.secondarySize + (if s.secondarySize = 0 then 1 else s.secondarySize),
      nextHandle := s.nextHandle + (if s.secondarySize = 0 then 1 else s.secondarySize) }
  else s

/-- get_cmdbuf(false) as triggered by CommandPool::record (src/command.rs
lines 40-46, 112-140): refill if needed, then pop an unused handle; the
popped handle is now held by the returned builder, hence live. The final
unwrap of the Rust source is the none case (unreachable, since a refilled
list is never empty). -/
def recordPrimary (s : PoolState) : Option (Nat × PoolState) :=
  match s.refillPrimary.primaryUnused with
  | [] => none
  | c :: rest =>
    some (c, { s.refillPrimary with
               primaryUnused := rest,
               livePrimary := c :: s.refillPrimary.livePrimary })

/-- get_cmdbuf(true) as triggered by CommandPool::record_secondary. -/
def recordSecondary (s : PoolState) : Option (Nat × PoolState) :=
  match s.refillSecondary.secondaryUnused with
  | [] => none
  | c :: rest =>
    some (c, { s.refillSecondary with
               secondaryUnused := rest,
               liveSecondary := c :: s.refillSecondary.liveSecondary })

/-- Drop of a primary CommandBuffer (impl Drop for CommandBuffer,
src/command.rs lines 495-502): the native handle is pushed onto the free
list of its native pool. Only a handle actually held by a live buffer can
be dropped; other events do not occur in a program trace. -/
def dropPrimary (s : PoolState) (h : Nat) : Option PoolState :=
  if h ∈ s.livePrimary then
    some { s with livePrimary := s.livePrimary.erase h,
                  freePrimary := s.freePrimary ++ [h] }
  else none

/-- Drop of a secondary CommandBuffer. -/
def dropSecondary (s : PoolState) (h : Nat) : Option PoolState :=
  if h ∈ s.liveSecondary then
    some { s with liveSecondary := s.liveSecondary.erase h,
                  freeSecondary := s.freeSecondary ++ [h] }
  else none

/-- CommandPool::reset (src/command.rs lines 64-83): first the two
assertions that every allocated handle is either unused or on the free
list; only if both hold is the native reset_command_pool issued, after
which the free-list handles are drained back into the thread-local unused
lists. A failed assertion is an error carrying the unchanged state: the
native reset was not issued (nativeResets unchanged). -/
def reset (s : PoolState) : Except PoolState PoolState :=
  if s.primaryUnused.length + s.freePrimary.length = s.primarySize ∧
     s.secondaryUnused.length + s.freeSecondary.length = s.secondarySize then
    .ok { s with
          primaryUnused := s.primaryUnused ++ s.freePrimary,
          secondaryUnused := s.secondaryUnused ++ s.freeSecondary,
          freePrimary := [], freeSecondary := [],
          nativeResets := s.nativeResets + 1 }
  else .error s

end PoolState

/-- The observable operations of one thread on its pool: begin a primary or
secondary recording (the builder is eventually built; building transfers
the handle from the builder to the command buffer and changes no counts),
drop a built command buffer, and reset. -/
inductive PoolOp
  | record
  | recordSecondary
  | dropPrimary (h : Nat)
  | dropSecondary (h : Nat)
  | reset
deriving DecidableEq

/-- One step of the pool state machine; none means the operation panicked
or is not a possible event in this state. -/
def PoolState.step (s : PoolState) : PoolOp → Option PoolState
  | .record => s.recordPrimary.map Prod.snd
  | .recordSecondary => s.recordSecondary.map Prod.snd
  | .dropPrimary h => s.dropPrimary h
  | .dropSecondary h => s.dropSecondary h
  | .reset => s.reset.toOption

/-- The states reachable by some sequence of record, build, drop and reset
operations from a fresh thread-local pool. -/
inductive PoolReachable : PoolState → Prop
  | init : PoolReachable PoolState.init
  | step (s : PoolState) (op : PoolOp) (s2 : PoolState) :
      PoolReachable s → s.step op = some s2 → PoolReachable s2

/-- Handle conservation: the handles ever allocated from the native pool
are exactly accounted for by the unused list, the free-list entry and the
live builders and buffers, separately per level. -/
def PoolState.balanced (s : PoolState) : Prop :=
  s.primaryUnused.length + s.freePrimary.length + s.livePrimary.length = s.primarySize ∧
  s.secondaryUnused.length + s.freeSecondary.length + s.liveSecondary.length = s.secondarySize

/-- The pool state after one record on a fresh thread-local pool: the
batch of one handle was allocated, handle 0 is held by the builder. -/
def poolStateA : PoolState := ⟨[], [], 1, 0, [], [], [0], [], 1, 0⟩

/-- The pool state after that command buffer is built and dropped:
handle 0 sits on the free-list entry of the native pool. -/
def poolStateB : PoolState := ⟨[], [], 1, 0, [0], [], [], [], 1, 0⟩

/-- struct SubmitState (src/sync.rs lines 79-109): the accumulator of wait
semaphores (with the parallel list of wait destination stage masks),
signal semaphores and command-buffer handles for one native submit call.
Stage masks are represented by their numeric flag values. -/
structure SubmitState where
  waitSemaphores : List Nat
  waitDstStageMasks : List Nat
  signalSemaphores : List Nat
  cmds : List Nat
deriving DecidableEq

namespace SubmitState

/-- SubmitState::new. -/
def new : SubmitState := ⟨[], [], [], []⟩

/-- SubmitState::wait_semaphore: push one wait semaphore and its
destination stage mask. -/
def waitSemaphore (s : SubmitState) (sem stage : Nat) : SubmitState :=
  { s with waitSemaphores := s.waitSemaphores ++ [sem],
           waitDstStageMasks := s.waitDstStageMasks ++ [stage] }

/-- SubmitState::signal_semaphore. -/
def signalSemaphore (s : SubmitState) (sem : Nat) : SubmitState :=
  { s with signalSemaphores := s.signalSemaphores ++ [sem] }

/-- SubmitState::cmd. -/
def cmd (s : SubmitState) (c : Nat) : SubmitState :=
  { s with cmds := s.cmds ++ [c] }

/-- SubmitState::join (src/sync.rs lines 103-108): extend every list of
the left state with the corresponding list of the right state. -/
def join (s other : SubmitState) : SubmitState :=
  ⟨s.waitSemaphores ++ other.waitSemaphores,
   s.waitDstStageMasks ++ other.waitDstStageMasks,
   s.signalSemaphores ++ other.signalSemaphores,
   s.cmds ++ other.cmds⟩

end SubmitState

/-- The numeric value of PipelineStageFlags::COLOR_ATTACHMENT_OUTPUT, the
wait stage used by AcquireFuture::build_submission. -/
def COLOR_ATTACHMENT_OUTPUT : Nat := 1024

/-- The future variants of the submission graph: SubmitFuture and
SubmitAfterFuture (src/device.rs lines 137-194), SemaphoreSignalFuture,
SemaphoreFuture, JoinFuture and NowFuture (src/sync.rs), and AcquireFuture
(src/swapchain.rs lines 180-202). Queues, command buffers and semaphores
are identified by their native handles. -/
inductive GpuFuture
  | submit (queue : Nat) (cmd : Nat)
  | submitAfter (queue : Nat) (cmd : Nat) (prev : GpuFuture)
  | semaphoreSignal (prev : GpuFuture) (sem : Nat)
  | semaphoreFuture (sem : Nat)
  | join (left right : GpuFuture)
  | now
  | acquire (sem : Nat)
deriving DecidableEq

namespace GpuFuture

/-- build_submission of every GpuFuture variant, by recursion on the chain.
none embeds a panic: SemaphoreFuture::build_submission is todo!()
(src/sync.rs line 125), and a panic in a subchain propagates (the right
side of a join is not built when the left side panicked). -/
def buildSubmission : GpuFuture → Option SubmitState
  | .submit _ c => some (SubmitState.new.cmd c)
  | .submitAfter _ c prev =>
    match buildSubmission prev with
    | none => none
    | some s => some (s.cmd c)
  | .semaphoreSignal prev sem =>
    match buildSubmission prev with
    | none => none
    | some s => some (s.signalSemaphore sem)
  | .semaphoreFuture _ => none
  | .join l r =>
    match buildSubmission l with
    | none => none
    | some sl =>
      match buildSubmission r with
      | none => none
      | some sr => some (sl.join sr)
  | .now => some SubmitState.new
  | .acquire sem => some (SubmitState.new.waitSemaphore sem COLOR_ATTACHMENT_OUTPUT)

/-- queue() of every GpuFuture variant. The outer Option embeds a panic:
AcquireFuture::queue is todo!() (src/swapchain.rs line 200). The inner
Option is the Option<&Arc<Queue>> of the source: some none means the
future reports no queue affinity. -/
def queueOf : GpuFuture → Option (Option Nat)
  | .submit q _ => some (some q)
  | .submitAfter q _ _ => some (some q)
  | .semaphoreSignal prev _ => queueOf prev
  | .semaphoreFuture _ => some none
  | .join l _ => queueOf l
  | .now => some none
  | .acquire _ => none

end GpuFuture

/-- JoinFuture::new as called by GpuFuture::join (src/sync.rs lines 39-44,
214-222): left.queue() is evaluated first (none means it panicked); if it
reports a queue, right.queue() is evaluated and, when both report a queue,
the assert that they are equal must pass; otherwise the constructor
panics (none). -/
def mkJoin (l r : GpuFuture) : Option GpuFuture :=
  match l.queueOf with
  | none => none
  | some none => some (.join l r)
  | some (some lq) =>
    match r.queueOf with
    | none => none
    | some none => some (.join l r)
    | some (some rq) => if lq = rq then some (.join l r) else none

/-- Observable events of the fence lifecycle: the native
wait_for_fences call returning, the release (drop) of the retained future
chain taken out of the AtomicCell slot, and the native destroy_fence
call. -/
inductive FenceEvent
  | nativeWaitFence
  | releaseChain
  | destroyFence
deriving DecidableEq

/-- struct Fence (src/sync.rs lines 170-208): the AtomicCell slot holding
the retained future chain. The native fence handle plays no role in the
claims and is omitted. -/
structure FenceState where
  prev : Option GpuFuture
deriving DecidableEq

/-- Fence::wait (src/sync.rs lines 198-201): block on wait_for_fences,
then take the retained chain out of the slot; dropping the taken value
releases the chain (an event emitted only when the slot was occupied).
Returns the fence state after the call and the trace of events in
order. -/
def FenceState.wait (f : FenceState) : FenceState × List FenceEvent :=
  (⟨none⟩,
   .nativeWaitFence :: (match f.prev with | some _ => [.releaseChain] | none => []))

/-- impl Drop for Fence (src/sync.rs lines 203-208): perform wait() first,
then destroy the native fence. Returns the trace of events in order. -/
def FenceState.drop (f : FenceState) : List FenceEvent :=
  f.wait.2 ++ [.destroyFence]

/-- Observable native events of Fence::end before a fence value exists:
the create_fence call and the queue_submit call. -/
inductive EndEvent
  | createFence
  | queueSubmit
deriving DecidableEq

/-- Fence::end, the body of then_signal_fence (src/sync.rs lines 182-196):
build the SubmitState of the whole chain (a panic there propagates with no
native call made), create the native fence, then submit with
prev.queue().unwrap() — evaluated before queue_submit runs, so a chain
whose queue() is None (or whose queue() itself panics) panics at that
point: after the fence was created and before any submission. On success
the fence retains the entire chain in its slot. An error carries the trace
of native events made before the panic. -/
def fenceEnd (prev : GpuFuture) : Except (List EndEvent) (FenceState × List EndEvent) :=
  match prev.buildSubmission with
  | none => .error []
  | some _ =>
    match prev.queueOf with
    | some (some _) => .ok (⟨some prev⟩, [.createFence, .queueSubmit])
    | _ => .error [.createFence]

/-- The future returned by Swapchain::acquire_next_image on success
(struct AcquireFuture, src/swapchain.rs lines 180-183): it holds the
swapchain and the semaphore created for the acquire. -/
structure AcquireFuture where
  swapchain : Nat
  semaphore : Nat
deriving DecidableEq

/-- Count of native semaphores created and destroyed during one call. -/
structure SemaphoreStats where
  created : Nat
  destroyed : Nat
deriving DecidableEq

/-- Swapchain::acquire_next_image (src/swapchain.rs lines 76-81): a fresh
semaphore is created for the attempt; the native acquire outcome is the
nativeAcquire argument (its error case covers a timeout result code). On a
native error the question-mark operator returns that error as an ordinary
Result value — no panic — and the only Arc of the just-created semaphore
is dropped on the way out, running destroy_semaphore (impl Drop for
Semaphore, src/sync.rs lines 27-31): one semaphore created, one destroyed.
On success the semaphore moves into the returned AcquireFuture and is not
destroyed. -/
def acquireNextImage (swapchain sem : Nat) (nativeAcquire : Except Nat (Nat × Bool)) :
    Except Nat (Nat × Bool × AcquireFuture) × SemaphoreStats :=
  match nativeAcquire with
  | .error e => (.error e, ⟨1, 1⟩)
  | .ok (idx, suboptimal) => (.ok (idx, suboptimal, ⟨swapchain, sem⟩), ⟨1, 0⟩)

/-- A batch allocation returns exactly the requested number of handles. -/
theorem PoolState.allocRange_length (start n : Nat) :
    (PoolState.allocRange start n).length = n := by
  simp [PoolState.allocRange]

/-- The lazy batch allocation of get_cmdbuf preserves handle conservation:
the unused list grows by exactly the amount added to the allocated-ever
counter. -/
theorem refillPrimary_balanced {s : PoolState} (hb : s.balanced) :
    s.refillPrimary.balanced := by
  obtain ⟨h1, h2⟩ := hb
  unfold PoolState.refillPrimary
  split
  · rename_i hempty
    rw [List.isEmpty_iff] at hempty
    refine ⟨?_, h2⟩
    simp only [PoolState.allocRange_length]
    rw [hempty] at h1
    simp at h1
    omega
  · exact ⟨h1, h2⟩

/-- Secondary counterpart of the batch-allocation lemma. -/
theorem refillSecondary_balanced {s : PoolState} (hb : s.balanced) :
    s.refillSecondary.balanced := by
  obtain ⟨h1, h2⟩ := hb
  unfold PoolState.refillSecondary
  split
  · rename_i hempty
    rw [List.isEmpty_iff] at hempty
    refine ⟨h1, ?_⟩
    simp only [PoolState.allocRange_length]
    rw [hempty] at h2
    simp at h2
    omega
  · exact ⟨h1, h2⟩

/-- Beginning a primary recording preserves handle conservation: the popped
handle moves from the unused list to the live set. -/
theorem recordPrimary_balanced {s : PoolState} (hb : s.balanced) {c : Nat}
    {s2 : PoolState} (h : s.recordPrimary = some (c, s2)) : s2.balanced := by
  have hr := refillPrimary_balanced hb
  obtain ⟨r1, r2⟩ := hr
  unfold PoolState.recordPrimary at h
  cases hu : s.refillPrimary.primaryUnused with
  | nil => rw [hu] at h; cases h
  | cons a rest =>
    rw [hu] at h
    injection h with h
    injection h with hc hs
    subst hc
    subst hs
    constructor
    · rw [hu] at r1
      simp at r1 ⊢
      omega
    · exact r2

/-- Secondary counterpart of the record lemma. -/
theorem recordSecondary_balanced {s : PoolState} (hb : s.balanced) {c : Nat}
    {s2 : PoolState} (h : s.recordSecondary = some (c, s2)) : s2.balanced := by
  have hr := refillSecondary_balanced hb
  obtain ⟨r1, r2⟩ := hr
  unfold PoolState.recordSecondary at h
  cases hu : s.refillSecondary.secondaryUnused with
  | nil => rw [hu] at h; cases h
  | cons a rest =>
    rw [hu] at h
    injection h with h
    injection h with hc hs
    subst hc
    subst hs
    constructor
    · exact r1
    · rw [hu] at r2
      simp at r2 ⊢
      omega

/-- Dropping a built primary command buffer preserves handle conservation:
its handle moves from the live set to the free-list entry. -/
theorem dropPrimary_balanced {s : PoolState} (hb : s.balanced) {h : Nat}
    {s2 : PoolState} (hd : s.dropPrimary h = some s2) : s2.balanced := by
  obtain ⟨h1, h2⟩ := hb
  unfold PoolState.dropPrimary at hd
  split at hd
  · rename_i hmem
    injection hd with hd
    subst hd
    refine ⟨?_, h2⟩
    have hlen := List.length_erase_of_mem hmem
    have hpos := List.length_pos_of_mem hmem
    simp [hlen]
    omega
  · cases hd

/-- Secondary counterpart of the drop lemma. -/
theorem dropSecondary_balanced {s : PoolState} (hb : s.balanced) {h : Nat}
    {s2 : PoolState} (hd : s.dropSecondary h = some s2) : s2.balanced := by
  obtain ⟨h1, h2⟩ := hb
  unfold PoolState.dropSecondary at hd
  split at hd
  · rename_i hmem
    injection hd with hd
    subst hd
    refine ⟨h1, ?_⟩
    have hlen := List.length_erase_of_mem hmem
    have hpos := List.length_pos_of_mem hmem
    simp [hlen]
    omega
  · cases hd

/-- A successful reset preserves handle conservation: the free-list handles
are drained back into the unused lists. -/
theorem reset_ok_balanced {s : PoolState} (hb : s.balanced) {s2 : PoolState}
    (h : s.reset = .ok s2) : s2.balanced := by
  obtain ⟨h1, h2⟩ := hb
  unfold PoolState.reset at h
  split at h
  · injection h with h
    subst h
    constructor <;> simp <;> omega
  · cases h

/-- Every pool-state-machine step preserves handle conservation. -/
theorem step_balanced {s : PoolState} (hb : s.balanced) {op : PoolOp}
    {s2 : PoolState} (h : s.step op = some s2) : s2.balanced := by
  cases op with
  | record =>
    simp only [PoolState.step, Option.map_eq_some'] at h
    obtain ⟨⟨c, s3⟩, hrec, hs⟩ := h
    exact hs ▸ recordPrimary_balanced hb hrec
  | recordSecondary =>
    simp only [PoolState.step, Option.map_eq_some'] at h
    obtain ⟨⟨c, s3⟩, hrec, hs⟩ := h
    exact hs ▸ recordSecondary_balanced hb hrec
  | dropPrimary hh => exact dropPrimary_balanced hb h
  | dropSecondary hh => exact dropSecondary_balanced hb h
  | reset =>
    simp only [PoolState.step] at h
    cases hr : s.reset with
    | error e => rw [hr] at h; cases h
    | ok s3 =>
      rw [hr] at h
      injection h with h
      exact h ▸ reset_ok_balanced hb hr

/-- Handle conservation holds in every reachable pool state. -/
theorem pool_reachable_balanced {s : PoolState} (hs : PoolReachable s) :
    s.balanced := by
  induction hs with
  | init => exact ⟨rfl, rfl⟩
  | step s op s2 hr hstep ih => exact step_balanced ih hstep

/-- Claim C1: the spec requires every append operation to add a ledger
entry for every reference-counted resource it references, in particular
clear_color_image for the image it clears. Evaluating clear_color_image of
the source on a fresh builder and image handle 0: the native
cmd_clear_color_image call referencing the image is issued, yet the
resource ledger stays empty — no Resource::Image entry is added, so the
image can be destroyed while the built command buffer is alive. The code
contradicts the spec here; every sibling operation that references a
reference-counted resource does push a ledger entry. -/
theorem clear_color_image_missing_ledger_entry :
    ((CommandBufferBuilder.mk [] []).clearColorImage 0).calls
        = [NativeCall.cmdClearColorImage 0] ∧
    ((CommandBufferBuilder.mk [] []).clearColorImage 0).resources = [] :=
  ⟨rfl, rfl⟩

/-- Claim C2: for every sequence of record, build and drop operations on
one CommandPool, at every observation point the number of handles ever
allocated from the thread-local native pool (primary_size respectively
secondary_size) equals the handles held by live builders or built command
buffers, plus the thread-local unused list, plus the free-list entry of
that native pool — separately for primary and secondary handles. -/
theorem pool_handle_conservation (s : PoolState) (hs : PoolReachable s) :
    s.primaryUnused.length + s.freePrimary.length + s.livePrimary.length
        = s.primarySize ∧
    s.secondaryUnused.length + s.freeSecondary.length + s.liveSecondary.length
        = s.secondarySize :=
  pool_reachable_balanced hs

/-- Witness for claim C2 at the reachable state after one record followed
by one build-and-drop. -/
theorem pool_handle_conservation_witness :
    poolStateB.primaryUnused.length + poolStateB.freePrimary.length
        + poolStateB.livePrimary.length = poolStateB.primarySize ∧
    poolStateB.secondaryUnused.length + poolStateB.freeSecondary.length
        + poolStateB.liveSecondary.length = poolStateB.secondarySize :=
  pool_handle_conservation poolStateB
    (PoolReachable.step poolStateA (.dropPrimary 0) poolStateB
      (PoolReachable.step PoolState.init .record poolStateA PoolReachable.init
        (by decide))
      (by decide))

/-- Claim C3: CommandPool::reset called while at least one command buffer
from the current generation of the calling thread is still alive fails the
assertion and panics with the state untouched — in particular before the
native reset_command_pool call (nativeResets unchanged); called once all
such buffers are dropped it succeeds, and the handles on the free-list
entry are moved back to the thread-local unused lists, making the same
native handles available to subsequent record and record_secondary
calls. -/
theorem reset_generation_precondition (s : PoolState) (hs : PoolReachable s) :
    (¬(s.livePrimary = [] ∧ s.liveSecondary = []) → s.reset = .error s) ∧
    ((s.livePrimary = [] ∧ s.liveSecondary = []) →
      s.reset = .ok { s with
        primaryUnused := s.primaryUnused ++ s.freePrimary,
        secondaryUnused := s.secondaryUnused ++ s.freeSecondary,
        freePrimary := [], freeSecondary := [],
        nativeResets := s.nativeResets + 1 }) := by
  obtain ⟨h1, h2⟩ := pool_reachable_balanced hs
  constructor
  · intro hlive
    unfold PoolState.reset
    rw [if_neg]
    intro ⟨c1, c2⟩
    apply hlive
    constructor
    · rw [← List.length_eq_zero]
      omega
    · rw [← List.length_eq_zero]
      omega
  · intro ⟨hp, hq⟩
    unfold PoolState.reset
    rw [if_pos]
    constructor
    · rw [hp] at h1
      simp at h1
      omega
    · rw [hq] at h2
      simp at h2
      omega

/-- Witness for claim C3: at the reachable state with the built buffer of
handle 0 still alive, reset panics with the state untouched; at the
reachable state after that buffer is dropped, reset succeeds and moves
handle 0 back to the thread-local unused list. -/
theorem reset_generation_precondition_witness :
    poolStateA.reset = .error poolStateA ∧
    poolStateB.reset = .ok ⟨[0], [], 1, 0, [], [], [], [], 1, 1⟩ :=
  ⟨(reset_generation_precondition poolStateA
      (PoolReachable.step PoolState.init .record poolStateA PoolReachable.init
        (by decide))).1 (by decide),
   (reset_generation_precondition poolStateB
      (PoolReachable.step poolStateA (.dropPrimary 0) poolStateB
        (PoolReachable.step PoolState.init .record poolStateA PoolReachable.init
          (by decide))
        (by decide))).2 (by decide)⟩

/-- A successful JoinFuture construction always wraps the two argument
futures unchanged. -/
theorem mkJoin_eq_join {a b j : GpuFuture} (h : mkJoin a b = some j) :
    j = GpuFuture.join a b := by
  unfold mkJoin at h
  split at h
  · cases h
  · injection h with h
    exact h.symm
  · split at h
    · cases h
    · injection h with h
      exact h.symm
    · split at h
      · injection h with h
        exact h.symm
      · cases h

/-- Claim C4: for every pair of futures a and b whose join constructs and
whose submissions build, building the submission of join(a, b) yields a
SubmitState whose wait-semaphore list (with its parallel wait-stage list),
signal-semaphore list and command-buffer list are each exactly the
concatenation of the lists of a followed by the lists of b. -/
theorem join_build_submission_concat (a b j : GpuFuture) (sa sb : SubmitState)
    (hj : mkJoin a b = some j)
    (ha : a.buildSubmission = some sa) (hb : b.buildSubmission = some sb) :
    ∃ sj, j.buildSubmission = some sj ∧
      sj.waitSemaphores = sa.waitSemaphores ++ sb.waitSemaphores ∧
      sj.waitDstStageMasks = sa.waitDstStageMasks ++ sb.waitDstStageMasks ∧
      sj.signalSemaphores = sa.signalSemaphores ++ sb.signalSemaphores ∧
      sj.cmds = sa.cmds ++ sb.cmds := by
  obtain rfl := mkJoin_eq_join hj
  refine ⟨sa.join sb, ?_, rfl, rfl, rfl, rfl⟩
  simp [GpuFuture.buildSubmission, ha, hb]

/-- Witness for claim C4: joining two leaf submissions on queue 0 holding
command buffers 1 and 2. -/
theorem join_build_submission_concat_witness :
    ∃ sj, (GpuFuture.join (.submit 0 1) (.submit 0 2)).buildSubmission = some sj ∧
      sj.waitSemaphores =
        (SubmitState.new.cmd 1).waitSemaphores ++ (SubmitState.new.cmd 2).waitSemaphores ∧
      sj.waitDstStageMasks =
        (SubmitState.new.cmd 1).waitDstStageMasks ++ (SubmitState.new.cmd 2).waitDstStageMasks ∧
      sj.signalSemaphores =
        (SubmitState.new.cmd 1).signalSemaphores ++ (SubmitState.new.cmd 2).signalSemaphores ∧
      sj.cmds = (SubmitState.new.cmd 1).cmds ++ (SubmitState.new.cmd 2).cmds :=
  join_build_submission_concat (.submit 0 1) (.submit 0 2)
    (.join (.submit 0 1) (.submit 0 2)) (SubmitState.new.cmd 1) (SubmitState.new.cmd 2)
    (by decide) rfl rfl

/-- Claim C5: for a fence holding any retained chain, wait() first blocks
on the native fence and only afterwards releases the retained chain; after
wait() returns the slot is empty, so the chain and its transitively
retained resources are destructible; a second wait() releases nothing
(exchange-on-take); and dropping the fence performs the full wait —
including the chain release — before the native fence is destroyed, so the
chain is never released before a completed wait on any path. -/
theorem fence_wait_releases_chain_once (c : Option GpuFuture) :
    (FenceState.mk c).wait.1.prev = none ∧
    (FenceState.mk c).wait.2 =
      FenceEvent.nativeWaitFence ::
        (if c.isSome then [FenceEvent.releaseChain] else []) ∧
    FenceEvent.releaseChain ∉ ((FenceState.mk c).wait.1.wait).2 ∧
    (FenceState.mk c).drop = (FenceState.mk c).wait.2 ++ [FenceEvent.destroyFence] := by
  cases c <;> simp [FenceState.wait, FenceState.drop]

/-- Claim C6: starting from an image in UNDEFINED layout, recording the
barrier transition to TRANSFER_DST_OPTIMAL updates the layout tag before
the native barrier is issued, so the following barrier on the same image
observes TRANSFER_DST_OPTIMAL; after the second transition the tag equals
SHADER_READ_ONLY_OPTIMAL; and any transition whose (old, new) pair is not
in the fixed lookup table faults (the unimplemented! panic, with the new
layout already stored and no native barrier issued). -/
theorem pipeline_barrier_layout_transitions (b : CommandBufferBuilder)
    (env : LayoutEnv) (i : Nat) (h : env i = ImageLayout.UNDEFINED) :
    ∃ b1 env1 b2 env2,
      b.pipelineBarrier env [⟨i, .TRANSFER_DST_OPTIMAL⟩] = .ok (b1, env1) ∧
      env1 i = .TRANSFER_DST_OPTIMAL ∧
      b1.pipelineBarrier env1 [⟨i, .SHADER_READ_ONLY_OPTIMAL⟩] = .ok (b2, env2) ∧
      env2 i = .SHADER_READ_ONLY_OPTIMAL ∧
      ∀ (b3 : CommandBufferBuilder) (env3 : LayoutEnv) (bar : ImageMemoryBarrier),
        accessMasks (env3 bar.img) bar.newLayout = none →
        b3.pipelineBarrier env3 [bar]
          = .error (b3, env3.store bar.img bar.newLayout) := by
  refine ⟨⟨b.resources ++ [.Image i], b.calls ++ [.cmdPipelineBarrier]⟩,
    env.store i .TRANSFER_DST_OPTIMAL,
    ⟨b.resources ++ [.Image i] ++ [.Image i],
     b.calls ++ [.cmdPipelineBarrier] ++ [.cmdPipelineBarrier]⟩,
    (env.store i .TRANSFER_DST_OPTIMAL).store i .SHADER_READ_ONLY_OPTIMAL,
    ?_, ?_, ?_, ?_, ?_⟩
  · simp [CommandBufferBuilder.pipelineBarrier, pipelineBarrierLoop, h, accessMasks]
  · simp [LayoutEnv.store]
  · simp [CommandBufferBuilder.pipelineBarrier, pipelineBarrierLoop,
      LayoutEnv.store, accessMasks]
  · simp [LayoutEnv.store]
  · intro b3 env3 bar hnone
    simp [CommandBufferBuilder.pipelineBarrier, pipelineBarrierLoop, hnone]

/-- Witness for claim C6: image handle 0 with every layout tag initially
UNDEFINED, on a fresh builder. -/
theorem pipeline_barrier_layout_transitions_witness :
    ∃ b1 env1 b2 env2,
      (CommandBufferBuilder.mk [] []).pipelineBarrier (fun _ => .UNDEFINED)
        [⟨0, .TRANSFER_DST_OPTIMAL⟩] = .ok (b1, env1) ∧
      env1 0 = .TRANSFER_DST_OPTIMAL ∧
      b1.pipelineBarrier env1 [⟨0, .SHADER_READ_ONLY_OPTIMAL⟩] = .ok (b2, env2) ∧
      env2 0 = .SHADER_READ_ONLY_OPTIMAL ∧
      ∀ (b3 : CommandBufferBuilder) (env3 : LayoutEnv) (bar : ImageMemoryBarrier),
        accessMasks (env3 bar.img) bar.newLayout = none →
        b3.pipelineBarrier env3 [bar]
          = .error (b3, env3.store bar.img bar.newLayout) :=
  pipeline_barrier_layout_transitions ⟨[], []⟩ (fun _ => .UNDEFINED) 0 rfl

/-- Claim C7: copy_buffer succeeds whenever the source byte size is at
most the destination byte size, issuing the native copy and pushing both
buffers onto the ledger; when the source is strictly larger it faults with
the builder unchanged — in particular before any native recording call is
issued. -/
theorem copy_buffer_size_check (b : CommandBufferBuilder) (src dst : Buffer) :
    (src.size ≤ dst.size →
      b.copyBuffer src dst =
        .ok { resources := b.resources ++ [.Buffer src.id, .Buffer dst.id],
              calls := b.calls ++ [.cmdCopyBuffer src.id dst.id] }) ∧
    (dst.size < src.size → b.copyBuffer src dst = .error b) := by
  constructor
  · intro h
    simp [CommandBufferBuilder.copyBuffer, h]
  · intro h
    simp [CommandBufferBuilder.copyBuffer, Nat.not_le.mpr h]

/-- Witness for claim C7: the spec scenario, a copy of a 64-byte source
into a 128-byte destination succeeds, a copy of a 128-byte source into a
64-byte destination faults with the builder unchanged. -/
theorem copy_buffer_size_check_witness :
    (CommandBufferBuilder.mk [] []).copyBuffer ⟨0, 64⟩ ⟨1, 128⟩ =
      .ok { resources := [.Buffer 0, .Buffer 1], calls := [.cmdCopyBuffer 0 1] } ∧
    (CommandBufferBuilder.mk [] []).copyBuffer ⟨2, 128⟩ ⟨3, 64⟩ =
      .error (CommandBufferBuilder.mk [] []) :=
  ⟨(copy_buffer_size_check ⟨[], []⟩ ⟨0, 64⟩ ⟨1, 128⟩).1 (by decide),
   (copy_buffer_size_check ⟨[], []⟩ ⟨2, 128⟩ ⟨3, 64⟩).2 (by decide)⟩

/-- Counterexample to claim C8 as stated: building the submission of the
semaphore-wait leaf with semaphore handle 0 does not produce a SubmitState
— SemaphoreFuture::build_submission is the todo!() macro and panics. -/
theorem semaphore_future_build_counterexample :
    (GpuFuture.semaphoreFuture 0).buildSubmission = none := rfl

/-- Claim C8 (amended): the semaphore-wait leaf reports no queue affinity
(queue() is None), but build_submission is unimplemented (todo!()) and
faults instead of producing a SubmitState containing its semaphore as a
wait dependency. -/
theorem semaphore_future_queue_none_build_todo (sem : Nat) :
    (GpuFuture.semaphoreFuture sem).queueOf = some none ∧
    (GpuFuture.semaphoreFuture sem).buildSubmission = none :=
  ⟨rfl, rfl⟩

/-- Claim C9: acquire_next_image on a native outcome that is an error
(such as the timeout result code) returns that error as an ordinary Result
value — the embedding is a total function into Except, no panic path — and
the semaphore created for the attempt is destroyed on that path: exactly
one semaphore created and one destroyed, no leak. -/
theorem acquire_next_image_timeout_no_leak (swapchain sem e : Nat) :
    (acquireNextImage swapchain sem (.error e)).1 = .error e ∧
    (acquireNextImage swapchain sem (.error e)).2.created
      = (acquireNextImage swapchain sem (.error e)).2.destroyed :=
  ⟨rfl, rfl⟩

/-- Claim C10: for every future chain that reports no owning queue but
whose submission builds (a bare NowFuture is such a chain), Fence::end —
the body of then_signal_fence — panics at the queue unwrap: after the
SubmitState was built and the native fence created, and before any
queue_submit call is made, so no fence value is ever produced from such a
chain. -/
theorem fence_end_queue_none_panics (prev : GpuFuture) (s : SubmitState)
    (hq : prev.queueOf = some none) (hb : prev.buildSubmission = some s) :
    fenceEnd prev = .error [EndEvent.createFence] := by
  simp [fenceEnd, hb, hq]

/-- Witness for claim C10: the bare NowFuture chain. -/
theorem fence_end_queue_none_panics_witness :
    fenceEnd GpuFuture.now = .error [EndEvent.createFence] :=
  fence_end_queue_none_panics GpuFuture.now SubmitState.new rfl rfl

end VulkanRs
